import Mathlib

/-!
Verification of the AI Builder Detector core (`functions/_detector.ts`).

The detection engine is shallowly embedded below.  Regular-expression
evaluation (the JS `RegExp` object) is an external primitive of the runtime,
so it is modelled as an explicit `RegexEngine` record of functions that is
passed to every definition that matches patterns; the fingerprint data and
all control flow around the engine are translated directly from the source.
JS numbers are modelled as `Nat` where the source only ever produces
non-negative integers (signal weights and scores) and as `ℚ` where fractional
arithmetic occurs (`confidenceLabel`'s `min * 1.5`).  The network is modelled
by passing the outcome of the primary fetch (`Except String FetchOk`) and the
content of the optional adjunct script fetch as arguments.
-/

namespace Detector

/-- `interface Signal` from the source: category, description, confidence,
matchedValue.  `confidence` is a string in the source type union
("high" | "medium" | "low"); it is kept as `String` because the scoring code
has an explicit fallback for any other value. -/
structure Signal where
  category : String
  description : String
  confidence : String
  matchedValue : String
deriving DecidableEq, Repr

/-- `type PatternEntry = [pattern, confidence, description]`. -/
structure PatternEntry where
  pattern : String
  confidence : String
  description : String
deriving DecidableEq, Repr

/-- The JS `RegExp` runtime, abstracted: `test pat flags subject` models
`new RegExp(pat, flags).test(subject)`; `exec pat flags subject` models
`re.exec(subject)` returning `m[0]` of the first match; `count pat flags subject`
models `subject.match(re)?.length ?? 0` for a global regex; `captures pat flags
subject` models repeated `re.exec` over a global regex collecting capture
group 1 of every match. -/
structure RegexEngine where
  test : String → String → String → Bool
  exec : String → String → String → Option String
  count : String → String → String → Nat
  captures : String → String → String → List String

/-- Successful outcome of the primary page fetch: response body text, raw
response headers, and `response.url`. -/
structure FetchOk where
  html : String
  headers : List (String × String)
  finalUrl : String
deriving DecidableEq, Repr

/-- `interface DetectionResult` from the source.  `Record<string, number>` is
modelled as an association list in object-insertion order. -/
structure DetectionResult where
  url : String
  finalUrl : String
  bucket : String
  bucketConfidence : String
  platform : Option String
  platformScore : Nat
  platformSignals : List Signal
  allPlatformScores : List (String × Nat)
  aiScore : Nat
  aiSignals : List Signal
  error : Option String
deriving DecidableEq, Repr

/-- JS `s.slice(0, n)` on a string: the first `n` characters. -/
def jsSlice (s : String) (n : Nat) : String :=
  ⟨s.data.take n⟩

/-- `s.startsWith(pre)`, computed on the character lists. -/
def jsStartsWith (s pre : String) : Bool :=
  pre.data.isPrefixOf s.data

/-- Drop the first `n` characters. -/
def jsDrop (s : String) (n : Nat) : String :=
  ⟨s.data.drop n⟩

/-- `s.toLowerCase()`, character-wise. -/
def jsToLower (s : String) : String :=
  ⟨s.data.map Char.toLower⟩

/-- `s.trim()`: strip leading and trailing whitespace. -/
def jsTrim (s : String) : String :=
  ⟨((s.data.dropWhile Char.isWhitespace).reverse.dropWhile Char.isWhitespace).reverse⟩

/-- `s.includes(c)` for a single character. -/
def jsContainsChar (s : String) (c : Char) : Bool :=
  s.data.contains c

theorem jsSlice_length_le (s : String) (n : Nat) : (jsSlice s n).length ≤ n := by
  show (s.data.take n).length ≤ n
  simp [List.length_take]

/-- Lookup in a JS object used as a string map: `obj[k]`, `undefined` as `none`. -/
def hdrGet? (headers : List (String × String)) (k : String) : Option String :=
  (headers.find? (fun p => p.1 == k)).map (·.2)

/-- `headers[k] ?? ""`. -/
def hdrGet (headers : List (String × String)) (k : String) : String :=
  (hdrGet? headers k).getD ""

/-- JS object assignment `obj[k] = v`: overwrites the value of an existing key
in place (keys keep their first-insertion position) or appends a new key. -/
def setKV (m : List (String × String)) (k v : String) : List (String × String) :=
  match m with
  | [] => [(k, v)]
  | (k', v') :: rest => if k' = k then (k, v) :: rest else (k', v') :: setKV rest k v

/-- `response.headers.forEach((v, k) => { responseHeaders[k.toLowerCase()] = v })`. -/
def lowerHeaders (headers : List (String × String)) : List (String × String) :=
  headers.foldl (fun acc p => setKV acc (jsToLower p.1) p.2) []

/-- `extractHostname` from the source: `new URL(url).hostname.toLowerCase()`
with a fallback to `url.toLowerCase()` when URL parsing throws.  WHATWG URL
parsing is modelled for the common `scheme://host[:port][/path...]` shape:
strip the scheme, take the host up to a delimiter, lower-case it; inputs
without an `http(s)` scheme, or with an empty host, take the catch branch. -/
def extractHostname (url : String) : String :=
  let hostFrom := fun (rest : String) =>
    (⟨rest.data.takeWhile (fun c => !(c == '/' || c == '?' || c == '#' || c == ':'))⟩ : String)
  if jsStartsWith url "https://" then
    let h := hostFrom (jsDrop url 8)
    if h = "" then jsToLower url else jsToLower h
  else if jsStartsWith url "http://" then
    let h := hostFrom (jsDrop url 7)
    if h = "" then jsToLower url else jsToLower h
  else
    jsToLower url

/-- `MIN_PLATFORM_SCORE = 5`. -/
def MIN_PLATFORM_SCORE : Nat := 5

/-- `MIN_AI_SCORE = 10`. -/
def MIN_AI_SCORE : Nat := 10

/-- `CATEGORY_CAP = 15`. -/
def CATEGORY_CAP : Nat := 15

/-- `CONFIDENCE_WEIGHTS[sig.confidence] ?? 1` with
`CONFIDENCE_WEIGHTS = { high: 10, medium: 5, low: 2 }`. -/
def confidenceWeight (c : String) : Nat :=
  if c = "high" then 10 else if c = "medium" then 5 else if c = "low" then 2 else 1

/-- One step of the `byCategory[sig.category] = (byCategory[sig.category] ?? 0) + w`
accumulation: bump the entry for `cat` by `w`, keeping object-insertion order. -/
def addWeight (m : List (String × Nat)) (cat : String) (w : Nat) : List (String × Nat) :=
  match m with
  | [] => [(cat, w)]
  | (c, v) :: rest => if c = cat then (c, v + w) :: rest else (c, v) :: addWeight rest cat w

/-- The `byCategory` object built by the loop in `scoreSignals`. -/
def byCategory (signals : List Signal) : List (String × Nat) :=
  signals.foldl (fun m s => addWeight m s.category (confidenceWeight s.confidence)) []

/-- `scoreSignals` from the source: group by category, sum confidence weights,
cap each category subtotal at `CATEGORY_CAP`, sum across categories. -/
def scoreSignals (signals : List Signal) : Nat :=
  (byCategory signals).foldl (fun sum p => sum + min p.2 CATEGORY_CAP) 0

/-- `confidenceLabel(score, min)` from the source, over exact rationals. -/
def confidenceLabel (score : ℚ) (min : ℚ) : String :=
  if score ≥ min * 3 then "high"
  else if score ≥ min * 1.5 then "medium"
  else if score ≥ min then "low"
  else "none"

/-- Rank of a confidence label under the ordering none < low < medium < high. -/
def confRank (label : String) : Nat :=
  if label = "high" then 3 else if label = "medium" then 2 else if label = "low" then 1 else 0

/-- `matchAll(html, patterns, category)` from the source: for each pattern
entry, record the first match (`m[0]`, truncated to 120 chars) as one signal. -/
def matchAll (M : RegexEngine) (html : String) (patterns : List PatternEntry)
    (category : String) : List Signal :=
  patterns.filterMap (fun e =>
    (M.exec e.pattern "is" html).map (fun m0 =>
      ⟨category, e.description, e.confidence, jsSlice m0 120⟩))

/-- `matchTagSrcs(html, tagPattern, urlPatterns, category)` from the source:
scan every tag occurrence for its URL attribute (capture group 1), then the
first URL pattern matching that URL yields one signal for that tag. -/
def matchTagSrcs (M : RegexEngine) (html : String) (tagPattern : String)
    (urlPatterns : List PatternEntry) (category : String) : List Signal :=
  (M.captures tagPattern "gi" html).filterMap (fun src =>
    (urlPatterns.find? (fun e => M.test e.pattern "i" src)).map (fun e =>
      ⟨category, e.description, e.confidence, jsSlice src 120⟩))

/-- `interface PlatformFingerprint`: optional pattern groups per observation
category; an absent group behaves like an empty list. -/
structure PlatformFingerprint where
  hostname : List PatternEntry := []
  http_header : List PatternEntry := []
  meta_tag : List PatternEntry := []
  html_comment : List PatternEntry := []
  data_attribute : List PatternEntry := []
  css_class : List PatternEntry := []
  css_variable : List PatternEntry := []
  js_global : List PatternEntry := []
  dom_id : List PatternEntry := []
  script_content : List PatternEntry := []
  script_src : List PatternEntry := []
  link_href : List PatternEntry := []
  img_src : List PatternEntry := []
  font : List PatternEntry := []
deriving DecidableEq, Repr

/-- `const FINGERPRINTS: Record<string, PlatformFingerprint>`, in declaration
order (JS object iteration order for string keys). -/
def FINGERPRINTS : List (String × PlatformFingerprint) := [
  ("Framer", {
    hostname := [
      ⟨"\\.framer\\.website$", "high", "Framer subdomain (.framer.website)"⟩,
      ⟨"\\.framer\\.app$", "high", "Framer subdomain (.framer.app)"⟩,
      ⟨"\\.framer\\.ai$", "high", "Framer subdomain (.framer.ai)"⟩],
    http_header := [
      ⟨"^Framer/", "high", "Framer Server header"⟩,
      ⟨"^framer$", "high", "Framer Server header (lowercase)"⟩],
    meta_tag := [
      ⟨"<meta[^>]+name=[\"\x27]generator[\"\x27][^>]+content=[\"\x27]Framer", "high", "Framer generator meta tag"⟩,
      ⟨"<meta[^>]+content=[\"\x27]Framer[^\"\x27]*[\"\x27][^>]+name=[\"\x27]generator[\"\x27]", "high", "Framer generator meta tag (reversed)"⟩],
    html_comment := [
      ⟨"Built with Framer", "high", "Framer build comment"⟩,
      ⟨"framer\\.com", "medium", "Framer URL in HTML comment"⟩],
    data_attribute := [
      ⟨"data-framer-component-type", "high", "Framer component attribute"⟩,
      ⟨"data-framer-stack-", "high", "Framer stack layout attribute"⟩,
      ⟨"data-framer-appear-id", "high", "Framer appear animation attribute"⟩,
      ⟨"data-framer-name", "medium", "Framer name attribute"⟩],
    css_class := [
      ⟨"\\bframer-[a-zA-Z0-9]\x7b4,10\x7d\\b", "medium", "Framer generated CSS class"⟩],
    css_variable := [
      ⟨"--framer-font-family", "high", "Framer CSS font variable"⟩,
      ⟨"--framer-text-color", "high", "Framer CSS text color variable"⟩,
      ⟨"--framer-link-", "high", "Framer CSS link variable"⟩],
    dom_id := [
      ⟨"id=[\"\x27]__framer-badge-container[\"\x27]", "high", "Framer badge (free tier)"⟩],
    script_src := [
      ⟨"framerusercontent\\.com", "high", "Framer CDN (framerusercontent.com)"⟩,
      ⟨"framerstatic\\.com", "high", "Framer static CDN"⟩,
      ⟨"events\\.framer\\.com", "high", "Framer analytics endpoint"⟩],
    link_href := [
      ⟨"framerusercontent\\.com", "high", "Framer CDN in stylesheet"⟩] }),
  ("Webflow", {
    hostname := [
      ⟨"\\.webflow\\.io$", "high", "Webflow subdomain (.webflow.io)"⟩],
    html_comment := [
      ⟨"This site was created in Webflow", "high", "Webflow build comment"⟩,
      ⟨"webflow\\.com", "medium", "Webflow URL in HTML comment"⟩],
    meta_tag := [
      ⟨"<meta[^>]+content=[\"\x27]Webflow[\"\x27][^>]+name=[\"\x27]generator[\"\x27]", "high", "Webflow generator meta tag"⟩,
      ⟨"<meta[^>]+name=[\"\x27]generator[\"\x27][^>]+content=[\"\x27]Webflow[\"\x27]", "high", "Webflow generator meta tag (reversed)"⟩],
    data_attribute := [
      ⟨"data-wf-domain", "high", "Webflow domain attribute"⟩,
      ⟨"data-wf-page", "high", "Webflow page ID attribute"⟩,
      ⟨"data-wf-site", "high", "Webflow site ID attribute"⟩,
      ⟨"data-wf-experiences", "high", "Webflow experiences attribute"⟩,
      ⟨"data-wf--button--variant", "high", "Webflow button component attribute"⟩,
      ⟨"data-wf--nav--variant", "high", "Webflow nav component attribute"⟩],
    css_class := [
      ⟨"\\bw-mod-js\\b", "high", "Webflow w-mod-js class"⟩,
      ⟨"\\bw-richtext\\b", "high", "Webflow rich text class"⟩,
      ⟨"\\bw-embed\\b", "high", "Webflow embed class"⟩,
      ⟨"\\bw-dyn-list\\b", "high", "Webflow dynamic list class"⟩,
      ⟨"\\bw-dyn-item\\b", "high", "Webflow dynamic item class"⟩,
      ⟨"\\bw-nav\\b", "high", "Webflow nav class"⟩,
      ⟨"\\bw-container\\b", "medium", "Webflow container class"⟩],
    css_variable := [
      ⟨"--_color---primary--webflow-blue", "high", "Webflow brand CSS variable"⟩,
      ⟨"--wst-button-", "high", "Webflow style token button variable"⟩],
    js_global := [
      ⟨"window\\.wf\\b", "high", "Webflow JS global (window.wf)"⟩,
      ⟨"window\\.webflowHost", "high", "Webflow JS host global"⟩,
      ⟨"Webflow\\.push", "high", "Webflow.push() JS call"⟩],
    script_src := [
      ⟨"cdn\\.prod\\.website-files\\.com", "high", "Webflow production CDN"⟩,
      ⟨"d3e54v103j8qbb\\.cloudfront\\.net", "high", "Webflow CloudFront CDN"⟩],
    link_href := [
      ⟨"cdn\\.prod\\.website-files\\.com", "high", "Webflow CDN stylesheet"⟩,
      ⟨"\\.webflow\\.[a-f0-9]+-[a-f0-9]+\\.min\\.css", "high", "Webflow generated CSS filename"⟩] }),
  ("Bolt", {
    hostname := [
      ⟨"\\.bolt\\.new$", "high", "Bolt preview subdomain (.bolt.new)"⟩,
      ⟨"\\.stackblitz\\.io$", "high", "StackBlitz preview (Bolt host)"⟩],
    meta_tag := [
      ⟨"<meta[^>]+name=[\"\x27]bolt-version[\"\x27]", "high", "Bolt version meta tag"⟩],
    html_comment := [
      ⟨"bolt\\.new", "high", "bolt.new URL in HTML comment"⟩,
      ⟨"<!--remix-island-start-->", "medium", "Remix island comment (Bolt uses Remix)"⟩],
    css_variable := [
      ⟨"--bolt-elements-", "high", "Bolt CSS element variable"⟩,
      ⟨"--bolt-ds-", "high", "Bolt design system CSS variable"⟩],
    js_global := [
      ⟨"window\\.__allowDOMMutations", "high", "Bolt JS global (__allowDOMMutations)"⟩,
      ⟨"window\\.__loadingPrompt", "high", "Bolt JS global (__loadingPrompt)"⟩,
      ⟨"\"bolt_theme\"", "medium", "Bolt theme localStorage key"⟩] }),
  ("v0 (Vercel)", {
    hostname := [
      ⟨"\\.v0\\.dev$", "high", "v0 subdomain (.v0.dev)"⟩,
      ⟨"\\.v0\\.app$", "high", "v0 subdomain (.v0.app)"⟩,
      ⟨"\\.vusercontent\\.net$", "high", "v0 vusercontent preview subdomain"⟩],
    data_attribute := [
      ⟨"data-dpl-id=[\"\x27]dpl_[a-zA-Z0-9]+[\"\x27]", "high", "v0/Vercel deployment ID attribute"⟩],
    script_src := [
      ⟨"/chat-static/_next/static/", "high", "v0 Next.js static bundle path"⟩,
      ⟨"blobs\\.vusercontent\\.net", "high", "v0 blob storage CDN"⟩,
      ⟨"generated\\.vusercontent\\.net", "high", "v0 generated asset CDN"⟩],
    link_href := [
      ⟨"/chat-static/_next/static/", "high", "v0 Next.js static CSS path"⟩,
      ⟨"vusercontent\\.net", "high", "v0 CDN in stylesheet"⟩],
    css_class := [
      ⟨"\\bgeist\\b", "medium", "Geist font class (Vercel/v0 proprietary)"⟩] }),
  ("Wix", {
    hostname := [
      ⟨"\\.wix\\.com$", "high", "Wix subdomain (.wix.com)"⟩,
      ⟨"\\.wixsite\\.com$", "high", "Wix subdomain (.wixsite.com)"⟩],
    meta_tag := [
      ⟨"<meta[^>]+name=[\"\x27]generator[\"\x27][^>]+content=[\"\x27]Wix\\.com", "high", "Wix generator meta tag"⟩,
      ⟨"<meta[^>]+content=[\"\x27]Wix\\.com[^\"\x27]*[\"\x27][^>]+name=[\"\x27]generator[\"\x27]", "high", "Wix generator meta tag (reversed)"⟩],
    dom_id := [
      ⟨"id=[\"\x27]SITE_CONTAINER[\"\x27]", "high", "Wix SITE_CONTAINER element"⟩,
      ⟨"id=[\"\x27]SITE_HEADER[\"\x27]", "high", "Wix SITE_HEADER element"⟩,
      ⟨"id=[\"\x27]SITE_FOOTER[\"\x27]", "high", "Wix SITE_FOOTER element"⟩,
      ⟨"id=[\"\x27]WIX_ADS[\"\x27]", "high", "Wix ads element (free tier)"⟩,
      ⟨"id=[\"\x27]masterPage[\"\x27]", "high", "Wix masterPage element"⟩],
    script_content := [
      ⟨"wix-thunderbolt", "high", "Wix Thunderbolt renderer reference"⟩,
      ⟨"\"applicationId\"\\s*:\\s*\"wix-", "high", "Wix application ID in JSON"⟩],
    css_variable := [
      ⟨"--color_\\d+\\s*:", "medium", "Wix numbered color CSS variable"⟩,
      ⟨"--font_\\d+\\s*:", "medium", "Wix numbered font CSS variable"⟩,
      ⟨"--wix-ads-height", "high", "Wix ads height CSS variable"⟩],
    script_src := [
      ⟨"static\\.parastorage\\.com", "high", "Wix parastorage CDN"⟩,
      ⟨"static\\.wixstatic\\.com", "high", "Wix static CDN"⟩,
      ⟨"siteassets\\.parastorage\\.com", "high", "Wix site assets CDN"⟩],
    link_href := [
      ⟨"static\\.parastorage\\.com", "high", "Wix parastorage CDN stylesheet"⟩,
      ⟨"static\\.wixstatic\\.com", "high", "Wix static CDN stylesheet"⟩] }),
  ("Lovable", {
    hostname := [
      ⟨"\\.lovable\\.app$", "high", "Lovable preview subdomain (.lovable.app)"⟩,
      ⟨"\\.gptengineer\\.app$", "high", "Lovable legacy subdomain (.gptengineer.app)"⟩],
    meta_tag := [
      ⟨"<meta[^>]+name=[\"\x27]generator[\"\x27][^>]+content=[\"\x27]Lovable", "high", "Lovable generator meta tag"⟩],
    dom_id := [
      ⟨"id=[\"\x27]lovable-badge[\"\x27]", "high", "Lovable badge (free tier)"⟩],
    html_comment := [
      ⟨"[Ll]ovable", "medium", "Lovable mention in HTML comment"⟩],
    js_global := [
      ⟨"window\\.__lovable", "high", "Lovable JS global"⟩],
    script_src := [
      ⟨"/lovable-uploads/[0-9a-f]\x7b8\x7d-[0-9a-f]\x7b4\x7d-[0-9a-f]\x7b4\x7d-[0-9a-f]\x7b4\x7d-[0-9a-f]\x7b12\x7d\\.[a-z]+", "high", "Lovable UUID uploads asset"⟩],
    img_src := [
      ⟨"/lovable-uploads/[0-9a-f]\x7b8\x7d-[0-9a-f]\x7b4\x7d-[0-9a-f]\x7b4\x7d-[0-9a-f]\x7b4\x7d-[0-9a-f]\x7b12\x7d\\.[a-z]+", "high", "Lovable UUID uploads image"⟩] }),
  ("Squarespace", {
    hostname := [
      ⟨"\\.squarespace\\.com$", "high", "Squarespace subdomain (.squarespace.com)"⟩],
    http_header := [
      ⟨"Squarespace", "high", "Squarespace server header"⟩],
    meta_tag := [
      ⟨"<meta[^>]+name=[\"\x27]generator[\"\x27][^>]+content=[\"\x27]Squarespace", "high", "Squarespace generator meta tag"⟩,
      ⟨"<meta[^>]+content=[\"\x27]Squarespace[^\"\x27]*[\"\x27][^>]+name=[\"\x27]generator[\"\x27]", "high", "Squarespace generator meta tag (reversed)"⟩],
    html_comment := [
      ⟨"Squarespace", "medium", "Squarespace mention in HTML comment"⟩],
    js_global := [
      ⟨"window\\.SQUARESPACE_ROLLUPS", "high", "Squarespace JS rollups global"⟩,
      ⟨"Static\\.SQUARESPACE_CONTEXT", "high", "Squarespace context global"⟩,
      ⟨"Y\\.Squarespace", "high", "Squarespace YUI namespace"⟩],
    css_class := [
      ⟨"\\bsqs-block\\b", "high", "Squarespace block CSS class"⟩,
      ⟨"\\bsqs-layout\\b", "high", "Squarespace layout CSS class"⟩,
      ⟨"\\bsqs-col-wrapper\\b", "high", "Squarespace col wrapper CSS class"⟩],
    script_src := [
      ⟨"static\\d*\\.squarespace\\.com", "high", "Squarespace static CDN"⟩,
      ⟨"squarespace\\.com/universal/scripts", "high", "Squarespace universal scripts"⟩],
    link_href := [
      ⟨"static\\d*\\.squarespace\\.com", "high", "Squarespace CDN stylesheet"⟩] }),
  ("GitHub Pages", {
    hostname := [
      ⟨"\\.github\\.io$", "high", "GitHub Pages subdomain (.github.io)"⟩],
    http_header := [
      ⟨"GitHub\\.com", "high", "GitHub.com server header"⟩],
    html_comment := [
      ⟨"[Gg]it[Hh]ub\\s*[Cc]opilot|[Cc]opilot\\s*[Ww]orkspace", "low", "GitHub Copilot mention in HTML comment"⟩] }),
  ("Cursor AI", {
    html_comment := [
      ⟨"[Cc]ursor\\s*[Aa][Ii]|built\\s+with\\s+[Cc]ursor", "low", "Cursor AI mention in HTML comment"⟩],
    meta_tag := [
      ⟨"<meta[^>]+content=[\"\x27][Cc]ursor\\s*[Aa][Ii][\"\x27]", "low", "Cursor AI meta tag"⟩] })]

/-- `OVER_COMMENTER_PATTERNS` (regex source, flags). -/
def OVER_COMMENTER_PATTERNS : List (String × String) := [
  ("\\/\\/\\s*(This function|Here we|Loop through|Initialize the|Check if|This will|We need to|Now we|First we|Get the|Set the|Add the|Create the|Update the|Handle the|This is (a|the)|This component|This page|This renders|The following)", "i"),
  ("\\/\\*\\s*(This function|Initialize|Loop|Handle|Create|Update|Get|Set|Add)\\b", "i"),
  ("<!--\\s*(This section|This is the|Navigation|Header section|Footer section|Main content|Hero section|This div|Wrapper for|Container for)", "i")]

/-- `SHADCN_PATTERNS` (regex source, flags). -/
def SHADCN_PATTERNS : List (String × String) := [
  ("rounded-lg border bg-card text-card-foreground shadow", ""),
  ("inline-flex items-center justify-center (gap-2 )?whitespace-nowrap rounded-md text-sm font-medium", ""),
  ("inline-flex items-center rounded-full border px-2\\.5 py-0\\.5 text-xs font-semibold", ""),
  ("flex h-(?:9|10) w-full rounded-md border border-input bg-background px-3 py-[12]", ""),
  ("fixed inset-0 z-50 bg-black\\/80", ""),
  ("fixed inset-y-0 z-50 flex (h-full )?flex-col", ""),
  ("function cn\\([^)]*\\)\\s*\\\x7b[\\s\\S]\x7b0,100\x7dclsx|twMerge", ""),
  ("@radix-ui\\/", "")]

/-- `TAILWIND_PATTERNS` (regex source, flags). -/
def TAILWIND_PATTERNS : List (String × String) := [
  ("class(?:Name)?=\"[^\"]*(?:flex|grid)[^\"]*(?:items-center|justify-between)[^\"]*(?:gap-|space-)[^\"]*\"", ""),
  ("class(?:Name)?=\"[^\"]*(?:sm:|md:|lg:|xl:|dark:)\x7b3,\x7d[^\"]*\"", ""),
  ("(?:bg|text|border)-(?:slate|gray|zinc|neutral|stone|blue|indigo|violet|purple)-(?:50|100|200|300|400|500|600|700|800|900|950)", "")]

/-- `VITE_PATTERNS` (regex source, flags). -/
def VITE_PATTERNS : List (String × String) := [
  ("\\/assets\\/index-[A-Za-z0-9_-]\x7b6,12\x7d\\.js", ""),
  ("\\/assets\\/index-[A-Za-z0-9_-]\x7b6,12\x7d\\.css", "")]

/-- `REACT_SPA_PATTERNS` (regex source, flags). -/
def REACT_SPA_PATTERNS : List (String × String) := [
  ("<div id=\"root\">\\s*<\\/div>", ""),
  ("<div id=\"app\">\\s*<\\/div>", "")]

/-- `LUCIDE_PATTERNS` (regex source, flags). -/
def LUCIDE_PATTERNS : List (String × String) := [
  ("lucide[-_]react", "i"),
  ("lucide", "i"),
  ("M\\s*12\\s+2[Cc]\\s*6\\.477\\s+2", ""),
  ("M\\s*3\\s+12[Hh]\\s*21", "")]

/-- `PLACEHOLDER_LINK_PATTERNS` regex sources (all declared with `gi` flags in
the source; the extractor re-builds each with `"gi"` explicitly). -/
def PLACEHOLDER_LINK_PATTERNS : List String := [
  "href=[\"\x27]https?:\\/\\/(?:www\\.)?example\\.com[\"\x27]",
  "href=[\"\x27]https?:\\/\\/(?:www\\.)?yourdomain\\.com[\"\x27]",
  "href=[\"\x27]https?:\\/\\/(?:www\\.)?placeholder\\.com[\"\x27]",
  "action=[\"\x27]\\/api\\/your[-_]endpoint[\"\x27]",
  "[\"\x27]https?:\\/\\/api\\.example\\.com\\/",
  "href=[\"\x27]mailto:you@example\\.com[\"\x27]",
  "href=[\"\x27]mailto:email@yourdomain\\.com[\"\x27]",
  "href=[\"\x27]mailto:info@yourcompany\\.com[\"\x27]"]

/-- `GENERIC_NAMING_PATTERNS` regex sources (re-built with `"gi"` at use). -/
def GENERIC_NAMING_PATTERNS : List String := [
  "class(?:Name)?=\"[^\"]*\\b(?:container|wrapper|section|block|div|col|row|item|card|box|panel|element|component)-\\d+\\b",
  "id=\"[^\"]*\\b(?:container|wrapper|section|block|div)-\\d+\\b",
  "\\bdata-(?:block|wrapper|element|component)=\"\\d*\""]

/-- `PROTOTYPE_HOSTING_HOSTNAMES` regex sources (all tested with `i` flag). -/
def PROTOTYPE_HOSTING_HOSTNAMES : List String := [
  "\\.vercel\\.app$",
  "\\.netlify\\.app$",
  "\\.pages\\.dev$",
  "\\.onrender\\.com$",
  "\\.fly\\.dev$",
  "\\.railway\\.app$",
  "\\.up\\.railway\\.app$",
  "\\.glitch\\.me$",
  "\\.stackblitz\\.io$",
  "\\.codesandbox\\.io$"]

/-- `AI_GENERATOR_META_PATTERNS` regex sources (both declared with `i` flag). -/
def AI_GENERATOR_META_PATTERNS : List String := [
  "<meta[^>]+name=[\"\x27]generator[\"\x27][^>]+content=[\"\x27][^\"\x27]*(?:Hostinger\\s*AI|AI\\s*Website|Durable\\.co|10Web|Jimdo\\s*AI|GoDaddy\\s*AI|Wix\\s*ADI|Zyro)[^\"\x27]*[\"\x27]",
  "<meta[^>]+content=[\"\x27][^\"\x27]*(?:Hostinger\\s*AI|AI\\s*Website|Durable\\.co|10Web|Jimdo\\s*AI|GoDaddy\\s*AI|Wix\\s*ADI|Zyro)[^\"\x27]*[\"\x27][^>]+name=[\"\x27]generator[\"\x27]", ]

/-- Tag-scanning regex for `fp.script_src` in `detectPlatform`. -/
def SCRIPT_TAG_RE : String := "<script[^>]+src=[\"\x27]([^\"\x27]+)[\"\x27]"

/-- Tag-scanning regex for `fp.link_href` in `detectPlatform`. -/
def LINK_TAG_RE : String := "<link[^>]+href=[\"\x27]([^\"\x27]+)[\"\x27]"

/-- Tag-scanning regex for `fp.img_src` in `detectPlatform`. -/
def IMG_TAG_RE : String := "<img[^>]+src=[\"\x27]([^\"\x27]+)[\"\x27]"

/-- Adjunct-bundle discovery regex in `detectAiHeuristics`:
`/src=["']([^"']*\/assets\/[^"']+\.js)['"]/i`. -/
def SCRIPT_SRC_RE : String := "src=[\"\x27]([^\"\x27]*\\/assets\\/[^\"\x27]+\\.js)[\x27\"]"

/-- `detectPlatform(platform, fp, html, headers, finalUrl)` from the source:
hostname rules, `server`-header rules, the Wix and Bolt special-cased header
checks, the nine HTML content categories through `matchAll`, and the three
URL-bearing tag categories through `matchTagSrcs`, concatenated in source
(push) order. -/
def detectPlatform (M : RegexEngine) (platform : String) (fp : PlatformFingerprint)
    (html : String) (headers : List (String × String)) (finalUrl : String) : List Signal :=
  let hostname := extractHostname finalUrl
  let server := hdrGet headers "server"
  (fp.hostname.filterMap (fun e =>
    if M.test e.pattern "i" hostname then
      some ⟨"hostname", e.description, e.confidence, hostname⟩
    else none))
  ++ (fp.http_header.filterMap (fun e =>
    if M.test e.pattern "i" server then
      some ⟨"http_header", e.description ++ " [server: " ++ jsSlice server 60 ++ "]",
            e.confidence, jsSlice server 60⟩
    else none))
  ++ (if platform = "Wix" then
        (if M.test "Pepyaka" "i" server then
          [⟨"http_header", "Wix Pepyaka server [server: " ++ server ++ "]", "high", server⟩]
         else [])
        ++ (if jsTrim (hdrGet headers "x-meta-site-is-wix-site") = "1" then
          [⟨"http_header", "Wix site confirmation header", "high", "1"⟩]
         else [])
      else [])
  ++ (if platform = "Bolt" then
        (let sv := hdrGet headers "server-version"
         if sv ≠ "" then
          [⟨"http_header", "Bolt server-version header [" ++ jsSlice sv 60 ++ "]",
            "high", jsSlice sv 60⟩]
         else [])
      else [])
  ++ matchAll M html fp.meta_tag "meta_tag"
  ++ matchAll M html fp.html_comment "html_comment"
  ++ matchAll M html fp.data_attribute "data_attribute"
  ++ matchAll M html fp.css_class "css_class"
  ++ matchAll M html fp.css_variable "css_variable"
  ++ matchAll M html fp.js_global "js_global"
  ++ matchAll M html fp.dom_id "dom_id"
  ++ matchAll M html fp.script_content "script_content"
  ++ matchAll M html fp.font "font"
  ++ matchTagSrcs M html SCRIPT_TAG_RE fp.script_src "cdn_url"
  ++ matchTagSrcs M html LINK_TAG_RE fp.link_href "cdn_url"
  ++ matchTagSrcs M html IMG_TAG_RE fp.img_src "cdn_url"

/-- `PROTOTYPE_HOSTING_HOSTNAMES.some((p) => p.test(hostname))`. -/
def isPrototypeHost (M : RegexEngine) (hostname : String) : Bool :=
  PROTOTYPE_HOSTING_HOSTNAMES.any (fun p => M.test p "i" hostname)

/-- Rule 1 of `detectAiHeuristics`: over-commenter detection.  The source
re-builds each pattern with a `g` flag appended unless already present. -/
def rule1_overCommenter (M : RegexEngine) (fullSource : String) : List Signal :=
  let commentHits := (OVER_COMMENTER_PATTERNS.map (fun p =>
    M.count p.1 (if jsContainsChar p.2 'g' then p.2 else p.2 ++ "g") fullSource)).sum
  if 5 ≤ commentHits then
    [⟨"over_commenter",
      "Tutorial-style comments detected (" ++ toString commentHits ++ " matches) — AI models over-explain trivial code",
      "high", toString commentHits⟩]
  else if 2 ≤ commentHits then
    [⟨"over_commenter",
      "Some tutorial-style comments detected (" ++ toString commentHits ++ " matches)",
      "medium", toString commentHits⟩]
  else []

/-- Rule 2: shadcn/ui signature density (count of distinct patterns firing). -/
def rule2_shadcn (M : RegexEngine) (fullSource : String) : List Signal :=
  let shadcnHits := (SHADCN_PATTERNS.filter (fun p => M.test p.1 p.2 fullSource)).length
  if 3 ≤ shadcnHits then
    [⟨"shadcn_ui",
      "shadcn/ui component signatures detected (" ++ toString shadcnHits ++ " patterns) — AI coding tools default to shadcn",
      "high", toString shadcnHits⟩]
  else if 1 ≤ shadcnHits then
    [⟨"shadcn_ui",
      "shadcn/ui component signatures detected (" ++ toString shadcnHits ++ " patterns)",
      "medium", toString shadcnHits⟩]
  else []

/-- Rule 3: Tailwind utility class patterns (distinct patterns firing). -/
def rule3_tailwind (M : RegexEngine) (fullSource : String) : List Signal :=
  let tailwindHits := (TAILWIND_PATTERNS.filter (fun p => M.test p.1 p.2 fullSource)).length
  if 2 ≤ tailwindHits then
    [⟨"tailwind_stack",
      "Tailwind CSS utility pattern detected — common AI default stack",
      "medium", toString tailwindHits⟩]
  else []

/-- Rule 4: Vite build artifacts, upgraded to medium with a React SPA root. -/
def rule4_vite (M : RegexEngine) (html : String) : List Signal :=
  let viteHits := (VITE_PATTERNS.filter (fun p => M.test p.1 p.2 html)).length
  if 1 ≤ viteHits then
    let reactSpa := REACT_SPA_PATTERNS.any (fun p => M.test p.1 p.2 html)
    [⟨"vite_build",
      if reactSpa then "Vite build artifacts + React SPA root — AI tools default to Vite + React"
      else "Vite build artifacts detected",
      if reactSpa then "medium" else "low", "vite"⟩]
  else []

/-- Rule 5: Lucide icon fingerprints (any pattern). -/
def rule5_lucide (M : RegexEngine) (fullSource : String) : List Signal :=
  if LUCIDE_PATTERNS.any (fun p => M.test p.1 p.2 fullSource) then
    [⟨"lucide_icons",
      "Lucide icon library detected — heavily favoured by AI coding tools",
      "medium", "lucide"⟩]
  else []

/-- Rule 6: Inter font via stylesheet link, inline CSS, or font-family list. -/
def rule6_interFont (M : RegexEngine) (html fullSource : String) : List Signal :=
  let interFont :=
    M.test "fonts\\.googleapis\\.com[^\"\x27]*[Ii]nter" "" html
    || M.test "font-family:[^;\x27\"]*[\x27\"]Inter[\x27\"]" "" fullSource
    || M.test "[\x27\"]Inter[\x27\"]," "" fullSource
  if interFont then
    [⟨"inter_font",
      "Inter font detected — AI tools almost universally default to Inter",
      "low", "Inter"⟩]
  else []

/-- Rule 7: placeholder/hallucinated links (total occurrences over the HTML). -/
def rule7_placeholder (M : RegexEngine) (html : String) : List Signal :=
  let placeholderHits := (PLACEHOLDER_LINK_PATTERNS.map (fun p => M.count p "gi" html)).sum
  if 3 ≤ placeholderHits then
    [⟨"placeholder_links",
      "Placeholder/hallucinated links detected (" ++ toString placeholderHits ++ ") — e.g. example.com, yourdomain.com, fake API endpoints",
      "high", toString placeholderHits⟩]
  else if 1 ≤ placeholderHits then
    [⟨"placeholder_links",
      "Placeholder link detected (" ++ toString placeholderHits ++ ") — e.g. example.com or yourdomain.com",
      "medium", toString placeholderHits⟩]
  else []

/-- Rule 8: generic numbered naming (total occurrences over the HTML). -/
def rule8_genericNaming (M : RegexEngine) (html : String) : List Signal :=
  let namingHits := (GENERIC_NAMING_PATTERNS.map (fun p => M.count p "gi" html)).sum
  if 4 ≤ namingHits then
    [⟨"generic_naming",
      "Generic numbered class/ID names detected (" ++ toString namingHits ++ ") — e.g. .container-1, .wrapper-2, .section-3",
      "medium", toString namingHits⟩]
  else if 2 ≤ namingHits then
    [⟨"generic_naming",
      "Some generic numbered class names detected (" ++ toString namingHits ++ ")",
      "low", toString namingHits⟩]
  else []

/-- Rule 9: prototype/zero-config hosting subdomain. -/
def rule9_prototypeHosting (hostname : String) (isProto : Bool) : List Signal :=
  if isProto then
    [⟨"prototype_hosting",
      "Hosted on a prototype/AI-default platform subdomain (" ++ hostname ++ ")",
      "medium", hostname⟩]
  else []

/-- `headers[k1] ?? headers[k2] ?? ""` (JS nullish coalescing: a present but
empty header value is kept). -/
def coalesceHdr (headers : List (String × String)) (k1 k2 : String) : String :=
  match hdrGet? headers k1 with
  | some v => v
  | none => (hdrGet? headers k2).getD ""

/-- Rule 10: Vercel / Netlify hosting headers, suppressed when rule 9 fired. -/
def rule10_hostingHeaders (headers : List (String × String)) (isProto : Bool) : List Signal :=
  let vercelId := coalesceHdr headers "x-vercel-id" "x-vercel-cache"
  (if vercelId ≠ "" && !isProto then
    [⟨"hosting_platform",
      "Hosted on Vercel (common AI-assisted site host)", "low", "vercel"⟩]
   else [])
  ++ (let netlifyHdr := coalesceHdr headers "x-nf-request-id" "x-netlify"
      if netlifyHdr ≠ "" && !isProto then
        [⟨"hosting_platform",
          "Hosted on Netlify (common AI-assisted site host)", "low", "netlify"⟩]
      else [])

/-- Rule 11: AI website-builder generator meta tag (first pattern only). -/
def rule11_generatorMeta (M : RegexEngine) (html : String) : List Signal :=
  match AI_GENERATOR_META_PATTERNS.findSome? (fun p => M.exec p "i" html) with
  | some m0 =>
    [⟨"ai_generator_meta",
      "AI website builder generator meta tag detected", "high", jsSlice m0 120⟩]
  | none => []

/-- `detectAiHeuristics(html, headers, finalUrl)` from the source, with the
content of the adjunct script fetch passed explicitly: `adjunct` is the (up to
300 KB) decoded body of the secondary fetch, used only when the bundle
discovery regex fires; the fetch itself (and its silent failure, which leaves
`jsSource` empty) is external I/O.  The eleven sub-detectors run in source
order. -/
def detectAiHeuristics (M : RegexEngine) (html : String)
    (headers : List (String × String)) (finalUrl : String) (adjunct : String) : List Signal :=
  let hostname := extractHostname finalUrl
  let jsSource := if (M.exec SCRIPT_SRC_RE "i" html).isSome then adjunct else ""
  let fullSource := html ++ "\n" ++ jsSource
  let isProto := isPrototypeHost M hostname
  rule1_overCommenter M fullSource
  ++ rule2_shadcn M fullSource
  ++ rule3_tailwind M fullSource
  ++ rule4_vite M html
  ++ rule5_lucide M fullSource
  ++ rule6_interFont M html fullSource
  ++ rule7_placeholder M html
  ++ rule8_genericNaming M html
  ++ rule9_prototypeHosting hostname isProto
  ++ rule10_hostingHeaders headers isProto
  ++ rule11_generatorMeta M html

/-- Stable insertion of an entry into a descending-sorted list: the inserted
(originally earlier) element goes before the first already-placed element
whose score it reaches, so relative order of equal scores is preserved. -/
def insertDesc (a : String × Nat) : List (String × Nat) → List (String × Nat)
  | [] => [a]
  | b :: t => if b.2 ≤ a.2 then a :: b :: t else b :: insertDesc a t

/-- `Object.entries(allPlatformScores).sort((a, b) => b[1] - a[1])` — ES
`Array.prototype.sort` is a stable sort by descending score.  A stable sort
under a total preorder is uniquely determined, so it is modelled by a
structurally recursive stable insertion sort: each element is inserted into
the sorted tail, passing exactly the elements with strictly smaller score. -/
def sortDesc : List (String × Nat) → List (String × Nat)
  | [] => []
  | a :: t => insertDesc a (sortDesc t)

/-- `.sort(...)[0] ?? ["", 0]`: the head of the stably descending-sorted
score table, defaulting to the empty platform with score 0. -/
def bestOf (scores : List (String × Nat)) : String × Nat :=
  (sortDesc scores).head?.getD ("", 0)

/-- Specification-side selection: the first entry of the table attaining the
maximum score (`none` on the empty table). -/
def firstMax : List (String × Nat) → Option (String × Nat)
  | [] => none
  | a :: t =>
    match firstMax t with
    | none => some a
    | some b => if a.2 < b.2 then some b else some a

/-- URL normalization at the top of `detectUrl`: trim, then prepend `https://`
when no scheme is present. -/
def normalizeUrl (rawUrl : String) : String :=
  let url := jsTrim rawUrl
  if jsStartsWith url "http://" || jsStartsWith url "https://" then url
  else "https://" ++ url

/-- `finalUrl = response.url || url` (empty `response.url` is falsy). -/
def finalUrlOf (f : FetchOk) (url : String) : String :=
  if f.finalUrl = "" then url else f.finalUrl

/-- The platform loop of `detectUrl`: `allPlatformSignalsMap` as an
association list in fingerprint declaration order. -/
def platformEntries (M : RegexEngine) (html : String)
    (headers : List (String × String)) (finalUrl : String) : List (String × List Signal) :=
  FINGERPRINTS.map (fun q => (q.1, detectPlatform M q.1 q.2 html headers finalUrl))

/-- `allPlatformScores` built from the same loop. -/
def platformScores (M : RegexEngine) (html : String)
    (headers : List (String × String)) (finalUrl : String) : List (String × Nat) :=
  (platformEntries M html headers finalUrl).map (fun q => (q.1, scoreSignals q.2))

/-- `detectUrl(rawUrl)` from the source.  The primary fetch is external I/O
and is passed as its outcome: `.error e` models the catch branch (message
`e`), `.ok f` a retrieved response (any status code).  `adjunct` is the body
the optional secondary script fetch would return (see
`detectAiHeuristics`). -/
def detectUrl (M : RegexEngine) (rawUrl : String)
    (fetched : Except String FetchOk) (adjunct : String) : DetectionResult :=
  let url := normalizeUrl rawUrl
  match fetched with
  | .error e =>
    { url := rawUrl, finalUrl := url, bucket := "unknown", bucketConfidence := "none",
      platform := none, platformScore := 0, platformSignals := [], allPlatformScores := [],
      aiScore := 0, aiSignals := [], error := some e }
  | .ok f =>
    let finalUrl := finalUrlOf f url
    let headers := lowerHeaders f.headers
    let entries := platformEntries M f.html headers finalUrl
    let allPlatformScores := entries.map (fun q => (q.1, scoreSignals q.2))
    let best := bestOf allPlatformScores
    let aiSignals := detectAiHeuristics M f.html headers finalUrl adjunct
    let aiScore := scoreSignals aiSignals
    if MIN_PLATFORM_SCORE ≤ best.2 then
      { url := rawUrl, finalUrl := finalUrl, bucket := "platform-assisted",
        bucketConfidence := confidenceLabel (best.2 : ℚ) (MIN_PLATFORM_SCORE : ℚ),
        platform := some best.1, platformScore := best.2,
        platformSignals := ((entries.find? (fun q => q.1 == best.1)).map (·.2)).getD [],
        allPlatformScores := allPlatformScores,
        aiScore := aiScore, aiSignals := aiSignals, error := none }
    else if MIN_AI_SCORE ≤ aiScore then
      { url := rawUrl, finalUrl := finalUrl, bucket := "ai-assisted",
        bucketConfidence := confidenceLabel (aiScore : ℚ) (MIN_AI_SCORE : ℚ),
        platform := none, platformScore := 0, platformSignals := [],
        allPlatformScores := allPlatformScores,
        aiScore := aiScore, aiSignals := aiSignals, error := none }
    else
      { url := rawUrl, finalUrl := finalUrl, bucket := "no-ai-signals",
        bucketConfidence := "none",
        platform := none, platformScore := 0, platformSignals := [],
        allPlatformScores := allPlatformScores,
        aiScore := aiScore, aiSignals := aiSignals, error := none }

/-- Value stored for category `c` in a score object (0 when absent). -/
def getW (m : List (String × Nat)) (c : String) : Nat :=
  ((m.find? (fun p => p.1 == c)).map (·.2)).getD 0

/-- Specification-side uncapped subtotal of a category: the plain sum of the
confidence weights of the signals in that category. -/
def catWeight (signals : List Signal) (c : String) : Nat :=
  ((signals.filter (fun s => s.category == c)).map (fun s => confidenceWeight s.confidence)).sum

theorem foldl_add_sum {α : Type} (f : α → Nat) :
    ∀ (l : List α) (i : Nat), l.foldl (fun a x => a + f x) i = i + (l.map f).sum
  | [], i => by simp
  | x :: t, i => by
    simp only [List.foldl_cons, List.map_cons, List.sum_cons]
    rw [foldl_add_sum f t (i + f x)]
    omega

theorem scoreSignals_eq_sum (signals : List Signal) :
    scoreSignals signals = ((byCategory signals).map (fun p => min p.2 CATEGORY_CAP)).sum := by
  simpa [scoreSignals] using foldl_add_sum (fun p => min p.2 CATEGORY_CAP) (byCategory signals) 0

theorem byCategory_append_single (s : List Signal) (x : Signal) :
    byCategory (s ++ [x]) = addWeight (byCategory s) x.category (confidenceWeight x.confidence) := by
  simp [byCategory, List.foldl_append]

theorem addWeight_cons_self (c : String) (v w : Nat) (rest : List (String × Nat)) :
    addWeight ((c, v) :: rest) c w = (c, v + w) :: rest := by
  simp [addWeight]

theorem addWeight_cons_ne (c c' : String) (v w : Nat) (rest : List (String × Nat))
    (h : c' ≠ c) : addWeight ((c', v) :: rest) c w = (c', v) :: addWeight rest c w := by
  simp [addWeight, h]

theorem sum_capped_addWeight_ge (c : String) (w : Nat) :
    ∀ m : List (String × Nat),
      (m.map (fun p => min p.2 CATEGORY_CAP)).sum
        ≤ ((addWeight m c w).map (fun p => min p.2 CATEGORY_CAP)).sum
  | [] => by simp
  | (c', v) :: rest => by
    by_cases h : c' = c
    · subst h
      rw [addWeight_cons_self]
      simp only [List.map_cons, List.sum_cons]
      have hmin : min v CATEGORY_CAP ≤ min (v + w) CATEGORY_CAP :=
        min_le_min (Nat.le_add_right v w) le_rfl
      omega
    · rw [addWeight_cons_ne _ _ _ _ _ h]
      simp only [List.map_cons, List.sum_cons]
      have := sum_capped_addWeight_ge c w rest
      omega

theorem getW_addWeight_self (c : String) (w : Nat) :
    ∀ m : List (String × Nat), getW (addWeight m c w) c = getW m c + w
  | [] => by simp [addWeight, getW]
  | (c', v) :: rest => by
    by_cases h : c' = c
    · subst h
      simp [addWeight, getW, List.find?_cons]
    · have hb : (c' == c) = false := beq_eq_false_iff_ne.mpr h
      simp only [addWeight, if_neg h, getW, List.find?_cons, hb]
      exact getW_addWeight_self c w rest

theorem getW_addWeight_ne (c c' : String) (w : Nat) (hne : c' ≠ c) :
    ∀ m : List (String × Nat), getW (addWeight m c w) c' = getW m c'
  | [] => by
    have hb : (c == c') = false := beq_eq_false_iff_ne.mpr (Ne.symm hne)
    simp [addWeight, getW, List.find?_cons, hb]
  | (c'', v) :: rest => by
    by_cases h : c'' = c
    · subst h
      have hb : (c'' == c') = false := beq_eq_false_iff_ne.mpr (fun he => hne he.symm)
      simp [addWeight, getW, List.find?_cons, hb]
    · by_cases h2 : c'' = c'
      · subst h2
        simp [addWeight, if_neg h, getW, List.find?_cons]
      · have hb : (c'' == c') = false := beq_eq_false_iff_ne.mpr h2
        simp only [addWeight, if_neg h, getW, List.find?_cons, hb]
        exact getW_addWeight_ne c c' w hne rest

theorem catWeight_append_single (s : List Signal) (x : Signal) (c : String) :
    catWeight (s ++ [x]) c
      = catWeight s c + (if x.category = c then confidenceWeight x.confidence else 0) := by
  simp only [catWeight, List.filter_append]
  by_cases h : x.category = c
  · simp [h]
  · simp [h, beq_eq_false_iff_ne.mpr h]

theorem getW_byCategory (c : String) (s : List Signal) :
    getW (byCategory s) c = catWeight s c := by
  induction s using List.reverseRecOn with
  | nil => simp [byCategory, getW, catWeight]
  | append_singleton t x ih =>
    rw [byCategory_append_single, catWeight_append_single]
    by_cases h : x.category = c
    · rw [if_pos h, ← h, getW_addWeight_self, h, ih]
    · rw [if_neg h, getW_addWeight_ne _ _ _ (fun he => h he.symm), ih, Nat.add_zero]

/-- C3: `scoreSignals` groups signals by category (`byCategory`), sums
confidence weights inside each category (the stored subtotal equals the plain
per-category weight sum `catWeight`), caps every category subtotal at
`CATEGORY_CAP = 15` — so a category whose uncapped sum reaches the cap
contributes exactly 15 — and returns the sum of the capped subtotals. -/
theorem scoreSignals_per_category_capped (signals : List Signal) (c : String) :
    scoreSignals signals = ((byCategory signals).map (fun p => min p.2 CATEGORY_CAP)).sum
    ∧ getW (byCategory signals) c = catWeight signals c
    ∧ (CATEGORY_CAP ≤ catWeight signals c →
        min (getW (byCategory signals) c) CATEGORY_CAP = CATEGORY_CAP) := by
  refine ⟨scoreSignals_eq_sum signals, getW_byCategory c signals, fun h => ?_⟩
  rw [getW_byCategory]
  exact min_eq_right h

/-- Eight low-confidence signals (weight 2 each) in one category: uncapped
subtotal 16 ≥ cap. -/
def capDemoSignals : List Signal :=
  (List.range 8).map (fun i => ⟨"css_class", "demo " ++ toString i, "low", "m"⟩)

theorem scoreSignals_per_category_capped_witness :
    CATEGORY_CAP ≤ catWeight capDemoSignals "css_class"
    ∧ min (getW (byCategory capDemoSignals) "css_class") CATEGORY_CAP = CATEGORY_CAP
    ∧ scoreSignals capDemoSignals = 15 :=
  ⟨by decide,
   (scoreSignals_per_category_capped capDemoSignals "css_class").2.2 (by decide),
   by decide⟩

/-- C4: `scoreSignals` is non-negative, deterministic (equal signal lists give
equal scores), and monotone: appending any signal never decreases the score. -/
theorem scoreSignals_nonneg_deterministic_monotone (s t : List Signal) (x : Signal) :
    0 ≤ scoreSignals s
    ∧ (s = t → scoreSignals s = scoreSignals t)
    ∧ scoreSignals s ≤ scoreSignals (s ++ [x]) := by
  refine ⟨Nat.zero_le _, fun h => by rw [h], ?_⟩
  rw [scoreSignals_eq_sum, scoreSignals_eq_sum, byCategory_append_single]
  exact sum_capped_addWeight_ge _ _ (byCategory s)

def monoDemoSignals : List Signal :=
  [⟨"meta_tag", "demo meta", "high", "m"⟩, ⟨"css_class", "demo class", "low", "m"⟩]

def monoDemoSignal : Signal := ⟨"css_class", "demo extra", "medium", "m2"⟩

theorem scoreSignals_nonneg_deterministic_monotone_witness :
    scoreSignals monoDemoSignals = scoreSignals monoDemoSignals
    ∧ scoreSignals monoDemoSignals ≤ scoreSignals (monoDemoSignals ++ [monoDemoSignal]) :=
  ⟨(scoreSignals_nonneg_deterministic_monotone monoDemoSignals monoDemoSignals monoDemoSignal).2.1 rfl,
   (scoreSignals_nonneg_deterministic_monotone monoDemoSignals monoDemoSignals monoDemoSignal).2.2⟩

theorem confidenceLabel_rank_mono (T : ℚ) (s s' : ℚ) (h : s ≤ s') :
    confRank (confidenceLabel s T) ≤ confRank (confidenceLabel s' T) := by
  unfold confidenceLabel
  split_ifs <;> simp [confRank] <;> linarith

/-- C5 (amended: for non-negative thresholds): `confidenceLabel` returns
"high" iff score ≥ 3·T, "medium" iff 1.5·T ≤ score < 3·T, "low" iff
T ≤ score < 1.5·T, "none" iff score < T; a score of exactly 3·T is "high", a
score of T − 1 is "none", and for fixed T the label is a non-decreasing step
function of the score under none < low < medium < high. -/
theorem confidenceLabel_thresholds (s T : ℚ) (hT : 0 ≤ T) :
    (confidenceLabel s T = "high" ↔ T * 3 ≤ s)
    ∧ (confidenceLabel s T = "medium" ↔ T * 1.5 ≤ s ∧ s < T * 3)
    ∧ (confidenceLabel s T = "low" ↔ T ≤ s ∧ s < T * 1.5)
    ∧ (confidenceLabel s T = "none" ↔ s < T)
    ∧ confidenceLabel (T * 3) T = "high"
    ∧ confidenceLabel (T - 1) T = "none"
    ∧ (∀ s', s ≤ s' → confRank (confidenceLabel s T) ≤ confRank (confidenceLabel s' T)) := by
  have h15 : T ≤ T * 1.5 := by linarith
  have h33 : T * 1.5 ≤ T * 3 := by linarith
  refine ⟨?_, ?_, ?_, ?_, ?_, ?_, fun s' h => confidenceLabel_rank_mono T s s' h⟩
  · unfold confidenceLabel
    split_ifs with h1 h2 h3
    · exact iff_of_true rfl h1
    · exact iff_of_false (by decide) h1
    · exact iff_of_false (by decide) h1
    · exact iff_of_false (by decide) h1
  · unfold confidenceLabel
    split_ifs with h1 h2 h3
    · exact iff_of_false (by decide) (fun hc => absurd hc.2 (not_lt.mpr h1))
    · exact iff_of_true rfl ⟨h2, not_le.mp h1⟩
    · exact iff_of_false (by decide) (fun hc => h2 hc.1)
    · exact iff_of_false (by decide) (fun hc => h2 hc.1)
  · unfold confidenceLabel
    split_ifs with h1 h2 h3
    · exact iff_of_false (by decide) (fun hc => absurd hc.2 (not_lt.mpr (le_trans h33 h1)))
    · exact iff_of_false (by decide) (fun hc => absurd hc.2 (not_lt.mpr h2))
    · exact iff_of_true rfl ⟨h3, not_le.mp h2⟩
    · exact iff_of_false (by decide) (fun hc => h3 hc.1)
  · unfold confidenceLabel
    split_ifs with h1 h2 h3
    · exact iff_of_false (by decide) (not_lt.mpr (le_trans (le_trans h15 h33) h1))
    · exact iff_of_false (by decide) (not_lt.mpr (le_trans h15 h2))
    · exact iff_of_false (by decide) (not_lt.mpr h3)
    · exact iff_of_true rfl (not_le.mp h3)
  · unfold confidenceLabel
    rw [if_pos (le_refl (T * 3))]
  · unfold confidenceLabel
    rw [if_neg (by intro hc; linarith), if_neg (by intro hc; linarith),
        if_neg (by intro hc; linarith)]

/-- C5 counterexample: the claim quantifies over every threshold, but at the
negative threshold T = −2 and score s = −3 we have s < T (claimed label
"none") while the function returns "high" (since −3 ≥ −6 = 3·T): the stated
biconditionals fail without a 0 ≤ T restriction. -/
theorem confidenceLabel_claim_counterexample :
    ((-3 : ℚ) < -2) ∧ confidenceLabel (-3) (-2) = "high" := by
  constructor
  · norm_num
  · norm_num [confidenceLabel]

theorem confidenceLabel_thresholds_witness :
    (0 : ℚ) ≤ 5
    ∧ confidenceLabel ((5 : ℚ) * 3) 5 = "high"
    ∧ confidenceLabel ((5 : ℚ) - 1) 5 = "none" :=
  ⟨by norm_num,
   (confidenceLabel_thresholds 0 5 (by norm_num)).2.2.2.2.1,
   (confidenceLabel_thresholds 0 5 (by norm_num)).2.2.2.2.2.1⟩

theorem head?_sortDesc_eq_firstMax : ∀ l : List (String × Nat), (sortDesc l).head? = firstMax l
  | [] => rfl
  | a :: t => by
    have ih := head?_sortDesc_eq_firstMax t
    show (insertDesc a (sortDesc t)).head? = firstMax (a :: t)
    cases hs : sortDesc t with
    | nil =>
      have hft : firstMax t = none := by rw [← ih, hs]; rfl
      simp [insertDesc, firstMax, hft]
    | cons b r =>
      have hft : firstMax t = some b := by rw [← ih, hs]; rfl
      by_cases hba : b.2 ≤ a.2
      · have : ¬ a.2 < b.2 := not_lt.mpr hba
        simp [insertDesc, hba, firstMax, hft, this]
      · have : a.2 < b.2 := not_le.mp hba
        simp [insertDesc, hba, firstMax, hft, this]

theorem firstMax_isSome (l : List (String × Nat)) (hl : l ≠ []) : (firstMax l).isSome := by
  cases l with
  | nil => exact absurd rfl hl
  | cons a t =>
    show (firstMax (a :: t)).isSome
    unfold firstMax
    cases firstMax t with
    | none => rfl
    | some b => by_cases h : a.2 < b.2 <;> simp [h]

theorem firstMax_spec : ∀ (l : List (String × Nat)) (p : String × Nat), firstMax l = some p →
    p ∈ l ∧ (∀ q ∈ l, q.2 ≤ p.2)
    ∧ ∃ l₁ l₂, l = l₁ ++ p :: l₂ ∧ ∀ q ∈ l₁, q.2 < p.2
  | [], p, h => by exact absurd h (by simp [firstMax])
  | a :: t, p, h => by
    rw [show firstMax (a :: t) = match firstMax t with
          | none => some a
          | some b => if a.2 < b.2 then some b else some a from rfl] at h
    cases hft : firstMax t with
    | none =>
      rw [hft] at h
      cases h
      have ht : t = [] := by
        cases t with
        | nil => rfl
        | cons b r => exact absurd (firstMax_isSome (b :: r) (by simp)) (by rw [hft]; simp)
      subst ht
      exact ⟨by simp, by simp, [], [], rfl, by simp⟩
    | some b =>
      rw [hft] at h
      dsimp only at h
      obtain ⟨hb_mem, hb_max, t₁, t₂, ht_eq, ht_lt⟩ := firstMax_spec t b hft
      by_cases hab : a.2 < b.2
      · rw [if_pos hab] at h
        cases h
        refine ⟨List.mem_cons_of_mem a hb_mem, ?_, a :: t₁, t₂, by rw [ht_eq]; rfl, ?_⟩
        · intro q hq
          rcases List.mem_cons.mp hq with hq | hq
          · rw [hq]; exact le_of_lt hab
          · exact hb_max q hq
        · intro q hq
          rcases List.mem_cons.mp hq with hq | hq
          · rw [hq]; exact hab
          · exact ht_lt q hq
      · rw [if_neg hab] at h
        cases h
        refine ⟨List.mem_cons_self a t, ?_, [], t, rfl, by simp⟩
        intro q hq
        rcases List.mem_cons.mp hq with hq | hq
        · rw [hq]
        · exact le_trans (hb_max q hq) (not_lt.mp hab)

/-- C6: the entry selected by `bestOf` (the head of the stable descending sort
of the score table, as in `detectUrl`) is an entry of the table, its score is
the maximum over the table, and every entry listed before it in table
iteration order has a strictly smaller score — i.e. ties at the maximum are
broken in favour of the first platform in fingerprint declaration order. -/
theorem bestOf_max_first_tiebreak (l : List (String × Nat)) (hl : l ≠ []) :
    bestOf l ∈ l ∧ (∀ q ∈ l, q.2 ≤ (bestOf l).2)
    ∧ ∃ l₁ l₂, l = l₁ ++ bestOf l :: l₂ ∧ ∀ q ∈ l₁, q.2 < (bestOf l).2 := by
  obtain ⟨p, hp⟩ := Option.isSome_iff_exists.mp (firstMax_isSome l hl)
  have hb : bestOf l = p := by rw [bestOf, head?_sortDesc_eq_firstMax, hp]; rfl
  rw [hb]
  exact firstMax_spec l p hp

def tieDemoTable : List (String × Nat) := [("Framer", 3), ("Webflow", 7), ("Wix", 7)]

theorem bestOf_max_first_tiebreak_witness :
    bestOf tieDemoTable = ("Webflow", 7) ∧ bestOf tieDemoTable ∈ tieDemoTable :=
  ⟨by decide, (bestOf_max_first_tiebreak tieDemoTable (by decide)).1⟩

theorem matchAll_mem (M : RegexEngine) (html : String) (pats : List PatternEntry)
    (cat : String) (s : Signal) (h : s ∈ matchAll M html pats cat) :
    s.category = cat ∧ ∃ m, s.matchedValue = jsSlice m 120 := by
  unfold matchAll at h
  rw [List.mem_filterMap] at h
  obtain ⟨e, _, hm⟩ := h
  cases hx : M.exec e.pattern "is" html with
  | none => rw [hx] at hm; simp at hm
  | some m0 =>
    rw [hx] at hm
    simp only [Option.map_some'] at hm
    cases hm
    exact ⟨rfl, m0, rfl⟩

theorem matchTagSrcs_mem (M : RegexEngine) (html tagPattern : String)
    (urlPatterns : List PatternEntry) (cat : String) (s : Signal)
    (h : s ∈ matchTagSrcs M html tagPattern urlPatterns cat) :
    s.category = cat ∧ ∃ m, s.matchedValue = jsSlice m 120 := by
  unfold matchTagSrcs at h
  rw [List.mem_filterMap] at h
  obtain ⟨src, _, hm⟩ := h
  cases hx : urlPatterns.find? (fun e => M.test e.pattern "i" src) with
  | none => rw [hx] at hm; simp at hm
  | some e =>
    rw [hx] at hm
    simp only [Option.map_some'] at hm
    cases hm
    exact ⟨rfl, src, rfl⟩

theorem rule1_mem (M : RegexEngine) (src : String) (s : Signal)
    (h : s ∈ rule1_overCommenter M src) :
    s.category = "over_commenter" ∧ ∃ n : Nat, s.matchedValue = toString n := by
  simp only [rule1_overCommenter] at h
  split at h
  · rw [List.mem_singleton] at h; subst h; exact ⟨rfl, _, rfl⟩
  · split at h
    · rw [List.mem_singleton] at h; subst h; exact ⟨rfl, _, rfl⟩
    · simp at h

theorem rule2_mem (M : RegexEngine) (src : String) (s : Signal)
    (h : s ∈ rule2_shadcn M src) :
    s.category = "shadcn_ui" ∧ ∃ n : Nat, s.matchedValue = toString n := by
  simp only [rule2_shadcn] at h
  split at h
  · rw [List.mem_singleton] at h; subst h; exact ⟨rfl, _, rfl⟩
  · split at h
    · rw [List.mem_singleton] at h; subst h; exact ⟨rfl, _, rfl⟩
    · simp at h

theorem rule3_mem (M : RegexEngine) (src : String) (s : Signal)
    (h : s ∈ rule3_tailwind M src) :
    s.category = "tailwind_stack" ∧ ∃ n : Nat, s.matchedValue = toString n := by
  simp only [rule3_tailwind] at h
  split at h
  · rw [List.mem_singleton] at h; subst h; exact ⟨rfl, _, rfl⟩
  · simp at h

theorem rule4_mem (M : RegexEngine) (html : String) (s : Signal)
    (h : s ∈ rule4_vite M html) :
    s.category = "vite_build" ∧ s.matchedValue = "vite" := by
  simp only [rule4_vite] at h
  split at h
  · rw [List.mem_singleton] at h; subst h; exact ⟨rfl, rfl⟩
  · simp at h

theorem rule5_mem (M : RegexEngine) (src : String) (s : Signal)
    (h : s ∈ rule5_lucide M src) :
    s.category = "lucide_icons" ∧ s.matchedValue = "lucide" := by
  simp only [rule5_lucide] at h
  split at h
  · rw [List.mem_singleton] at h; subst h; exact ⟨rfl, rfl⟩
  · simp at h

theorem rule6_mem (M : RegexEngine) (html src : String) (s : Signal)
    (h : s ∈ rule6_interFont M html src) :
    s.category = "inter_font" ∧ s.matchedValue = "Inter" := by
  simp only [rule6_interFont] at h
  split at h
  · rw [List.mem_singleton] at h; subst h; exact ⟨rfl, rfl⟩
  · simp at h

theorem rule7_mem (M : RegexEngine) (html : String) (s : Signal)
    (h : s ∈ rule7_placeholder M html) :
    s.category = "placeholder_links" ∧ ∃ n : Nat, s.matchedValue = toString n := by
  simp only [rule7_placeholder] at h
  split at h
  · rw [List.mem_singleton] at h; subst h; exact ⟨rfl, _, rfl⟩
  · split at h
    · rw [List.mem_singleton] at h; subst h; exact ⟨rfl, _, rfl⟩
    · simp at h

theorem rule8_mem (M : RegexEngine) (html : String) (s : Signal)
    (h : s ∈ rule8_genericNaming M html) :
    s.category = "generic_naming" ∧ ∃ n : Nat, s.matchedValue = toString n := by
  simp only [rule8_genericNaming] at h
  split at h
  · rw [List.mem_singleton] at h; subst h; exact ⟨rfl, _, rfl⟩
  · split at h
    · rw [List.mem_singleton] at h; subst h; exact ⟨rfl, _, rfl⟩
    · simp at h

theorem rule9_mem (hostname : String) (b : Bool) (s : Signal)
    (h : s ∈ rule9_prototypeHosting hostname b) :
    s.category = "prototype_hosting" ∧ s.matchedValue = hostname := by
  simp only [rule9_prototypeHosting] at h
  split at h
  · rw [List.mem_singleton] at h; subst h; exact ⟨rfl, rfl⟩
  · simp at h

theorem rule10_mem (headers : List (String × String)) (b : Bool) (s : Signal)
    (h : s ∈ rule10_hostingHeaders headers b) :
    s.category = "hosting_platform"
    ∧ (s.matchedValue = "vercel" ∨ s.matchedValue = "netlify") := by
  simp only [rule10_hostingHeaders, List.mem_append] at h
  rcases h with h | h
  · split at h
    · rw [List.mem_singleton] at h; subst h; exact ⟨rfl, Or.inl rfl⟩
    · simp at h
  · split at h
    · rw [List.mem_singleton] at h; subst h; exact ⟨rfl, Or.inr rfl⟩
    · simp at h

theorem rule10_suppressed (headers : List (String × String)) :
    rule10_hostingHeaders headers true = [] := by
  simp [rule10_hostingHeaders]

theorem rule11_mem (M : RegexEngine) (html : String) (s : Signal)
    (h : s ∈ rule11_generatorMeta M html) :
    s.category = "ai_generator_meta" ∧ ∃ m, s.matchedValue = jsSlice m 120 := by
  unfold rule11_generatorMeta at h
  split at h
  · rw [List.mem_singleton] at h; subst h; exact ⟨rfl, _, rfl⟩
  · simp at h

/-- C9: the AI heuristic extractor emits the low-confidence Vercel (resp.
Netlify) `hosting_platform` signal exactly when the identifying response
header is present and the prototype-hosting sub-detector (rule 9, hostname
suffix match) did not fire; when rule 9 fired, its `prototype_hosting` signal
is emitted and no `hosting_platform` signal appears at all. -/
theorem hosting_header_suppression (M : RegexEngine)
    (html adjunct finalUrl : String) (headers : List (String × String)) :
    (isPrototypeHost M (extractHostname finalUrl) = true →
      ∀ s ∈ detectAiHeuristics M html headers finalUrl adjunct,
        s.category ≠ "hosting_platform")
    ∧ (isPrototypeHost M (extractHostname finalUrl) = true →
      (⟨"prototype_hosting",
        "Hosted on a prototype/AI-default platform subdomain (" ++ extractHostname finalUrl ++ ")",
        "medium", extractHostname finalUrl⟩ : Signal)
        ∈ detectAiHeuristics M html headers finalUrl adjunct)
    ∧ (isPrototypeHost M (extractHostname finalUrl) = false →
       coalesceHdr headers "x-vercel-id" "x-vercel-cache" ≠ "" →
      (⟨"hosting_platform", "Hosted on Vercel (common AI-assisted site host)",
        "low", "vercel"⟩ : Signal)
        ∈ detectAiHeuristics M html headers finalUrl adjunct)
    ∧ (isPrototypeHost M (extractHostname finalUrl) = false →
       coalesceHdr headers "x-nf-request-id" "x-netlify" ≠ "" →
      (⟨"hosting_platform", "Hosted on Netlify (common AI-assisted site host)",
        "low", "netlify"⟩ : Signal)
        ∈ detectAiHeuristics M html headers finalUrl adjunct) := by
  refine ⟨?_, ?_, ?_, ?_⟩
  · intro hp s hs
    simp only [detectAiHeuristics, List.mem_append] at hs
    rw [hp] at hs
    rcases hs with ((((((((((h|h)|h)|h)|h)|h)|h)|h)|h)|h)|h)
    · rw [(rule1_mem _ _ _ h).1]; decide
    · rw [(rule2_mem _ _ _ h).1]; decide
    · rw [(rule3_mem _ _ _ h).1]; decide
    · rw [(rule4_mem _ _ _ h).1]; decide
    · rw [(rule5_mem _ _ _ h).1]; decide
    · rw [(rule6_mem _ _ _ _ h).1]; decide
    · rw [(rule7_mem _ _ _ h).1]; decide
    · rw [(rule8_mem _ _ _ h).1]; decide
    · rw [(rule9_mem _ _ _ h).1]; decide
    · rw [rule10_suppressed] at h; simp at h
    · rw [(rule11_mem _ _ _ h).1]; decide
  · intro hp
    simp only [detectAiHeuristics]
    rw [hp]
    refine List.mem_append_left _ (List.mem_append_left _ (List.mem_append_right _ ?_))
    simp [rule9_prototypeHosting]
  · intro hp hv
    simp only [detectAiHeuristics]
    rw [hp]
    refine List.mem_append_left _ (List.mem_append_right _ ?_)
    simp only [rule10_hostingHeaders]
    rw [if_pos (by simp [hv])]
    exact List.mem_append_left _ (List.mem_singleton.mpr rfl)
  · intro hp hn
    simp only [detectAiHeuristics]
    rw [hp]
    refine List.mem_append_left _ (List.mem_append_right _ ?_)
    simp only [rule10_hostingHeaders]
    refine List.mem_append_right _ ?_
    rw [if_pos (by simp [hn])]
    exact List.mem_singleton.mpr rfl

/-- A regex engine whose every test fails and every exec finds nothing: no
pattern matches anywhere. -/
def plainEngine : RegexEngine :=
  { test := fun _ _ _ => false, exec := fun _ _ _ => none,
    count := fun _ _ _ => 0, captures := fun _ _ _ => [] }

def vercelHeadersDemo : List (String × String) := [("x-vercel-id", "iad1::abc")]

theorem hosting_header_suppression_witness :
    (⟨"hosting_platform", "Hosted on Vercel (common AI-assisted site host)",
      "low", "vercel"⟩ : Signal)
      ∈ detectAiHeuristics plainEngine "" vercelHeadersDemo "https://custom.example" "" :=
  (hosting_header_suppression plainEngine "" "" "https://custom.example" vercelHeadersDemo).2.2.1
    (by decide) (by decide)

/-- C7 (amended): every signal produced by the platform matcher has a
`matchedValue` of at most 120 characters, except the hostname-rule signals
(which carry the untruncated hostname) and the Wix Pepyaka signal (which
carries the raw `server` header value); every signal produced by the AI
heuristic extractor is bounded by 120 characters except the
prototype-hosting signal (untruncated hostname) and the decimal hit-count
numerals used as matched values by the counting sub-detectors. -/
theorem signal_matchedValue_bounded (M : RegexEngine) (platform : String)
    (fp : PlatformFingerprint) (html adjunct finalUrl : String)
    (headers : List (String × String)) :
    (∀ s ∈ detectPlatform M platform fp html headers finalUrl,
      s.matchedValue.length ≤ 120
      ∨ s.matchedValue = extractHostname finalUrl
      ∨ s.matchedValue = hdrGet headers "server")
    ∧ (∀ s ∈ detectAiHeuristics M html headers finalUrl adjunct,
      s.matchedValue.length ≤ 120
      ∨ s.matchedValue = extractHostname finalUrl
      ∨ ∃ n : Nat, s.matchedValue = toString n) := by
  constructor
  · intro s hs
    simp only [detectPlatform, List.mem_append] at hs
    rcases hs with (((((((((((((((h|h)|h)|h)|h)|h)|h)|h)|h)|h)|h)|h)|h)|h)|h)|h)
    · rw [List.mem_filterMap] at h
      obtain ⟨e, _, hm⟩ := h
      split at hm
      · cases hm; exact Or.inr (Or.inl rfl)
      · cases hm
    · rw [List.mem_filterMap] at h
      obtain ⟨e, _, hm⟩ := h
      split at hm
      · cases hm; exact Or.inl (le_trans (jsSlice_length_le _ _) (by norm_num))
      · cases hm
    · split at h
      · rw [List.mem_append] at h
        rcases h with h|h
        · split at h
          · rw [List.mem_singleton] at h; subst h; exact Or.inr (Or.inr rfl)
          · simp at h
        · split at h
          · rw [List.mem_singleton] at h; subst h; exact Or.inl (by decide)
          · simp at h
      · simp at h
    · split at h
      · split at h
        · rw [List.mem_singleton] at h; subst h
          exact Or.inl (le_trans (jsSlice_length_le _ _) (by norm_num))
        · simp at h
      · simp at h
    · rcases matchAll_mem _ _ _ _ _ h with ⟨-, m, hm⟩
      rw [hm]; exact Or.inl (jsSlice_length_le _ _)
    · rcases matchAll_mem _ _ _ _ _ h with ⟨-, m, hm⟩
      rw [hm]; exact Or.inl (jsSlice_length_le _ _)
    · rcases matchAll_mem _ _ _ _ _ h with ⟨-, m, hm⟩
      rw [hm]; exact Or.inl (jsSlice_length_le _ _)
    · rcases matchAll_mem _ _ _ _ _ h with ⟨-, m, hm⟩
      rw [hm]; exact Or.inl (jsSlice_length_le _ _)
    · rcases matchAll_mem _ _ _ _ _ h with ⟨-, m, hm⟩
      rw [hm]; exact Or.inl (jsSlice_length_le _ _)
    · rcases matchAll_mem _ _ _ _ _ h with ⟨-, m, hm⟩
      rw [hm]; exact Or.inl (jsSlice_length_le _ _)
    · rcases matchAll_mem _ _ _ _ _ h with ⟨-, m, hm⟩
      rw [hm]; exact Or.inl (jsSlice_length_le _ _)
    · rcases matchAll_mem _ _ _ _ _ h with ⟨-, m, hm⟩
      rw [hm]; exact Or.inl (jsSlice_length_le _ _)
    · rcases matchAll_mem _ _ _ _ _ h with ⟨-, m, hm⟩
      rw [hm]; exact Or.inl (jsSlice_length_le _ _)
    · rcases matchTagSrcs_mem _ _ _ _ _ _ h with ⟨-, m, hm⟩
      rw [hm]; exact Or.inl (jsSlice_length_le _ _)
    · rcases matchTagSrcs_mem _ _ _ _ _ _ h with ⟨-, m, hm⟩
      rw [hm]; exact Or.inl (jsSlice_length_le _ _)
    · rcases matchTagSrcs_mem _ _ _ _ _ _ h with ⟨-, m, hm⟩
      rw [hm]; exact Or.inl (jsSlice_length_le _ _)
  · intro s hs
    simp only [detectAiHeuristics, List.mem_append] at hs
    rcases hs with ((((((((((h|h)|h)|h)|h)|h)|h)|h)|h)|h)|h)
    · rcases rule1_mem _ _ _ h with ⟨-, n, hm⟩; exact Or.inr (Or.inr ⟨n, hm⟩)
    · rcases rule2_mem _ _ _ h with ⟨-, n, hm⟩; exact Or.inr (Or.inr ⟨n, hm⟩)
    · rcases rule3_mem _ _ _ h with ⟨-, n, hm⟩; exact Or.inr (Or.inr ⟨n, hm⟩)
    · rcases rule4_mem _ _ _ h with ⟨-, hm⟩; rw [hm]; exact Or.inl (by decide)
    · rcases rule5_mem _ _ _ h with ⟨-, hm⟩; rw [hm]; exact Or.inl (by decide)
    · rcases rule6_mem _ _ _ _ h with ⟨-, hm⟩; rw [hm]; exact Or.inl (by decide)
    · rcases rule7_mem _ _ _ h with ⟨-, n, hm⟩; exact Or.inr (Or.inr ⟨n, hm⟩)
    · rcases rule8_mem _ _ _ h with ⟨-, n, hm⟩; exact Or.inr (Or.inr ⟨n, hm⟩)
    · rcases rule9_mem _ _ _ h with ⟨-, hm⟩; exact Or.inr (Or.inl hm)
    · rcases rule10_mem _ _ _ h with ⟨-, hm | hm⟩ <;> rw [hm] <;> exact Or.inl (by decide)
    · rcases rule11_mem _ _ _ h with ⟨-, m, hm⟩; rw [hm]; exact Or.inl (jsSlice_length_le _ _)

/-- A regex engine that reports a match for every test: on the concrete
counterexample call below it agrees with the real JS engine, since the
pattern `\.framer\.website$` does match the long `.framer.website` host. -/
def alwaysEngine : RegexEngine :=
  { test := fun _ _ _ => true, exec := fun _ _ _ => none,
    count := fun _ _ _ => 0, captures := fun _ _ _ => [] }

/-- A URL whose hostname is 125 characters long (110 a's + ".framer.website"). -/
def longHostUrl : String := "https://" ++ String.mk (List.replicate 110 'a') ++ ".framer.website"

def framerFp : PlatformFingerprint := (FINGERPRINTS.headD ("", {})).2

set_option maxRecDepth 8192 in
/-- C7 counterexample: the hostname rule copies the resolved hostname into
`matchedValue` without truncation, so a 125-character `.framer.website`
hostname yields a platform-matcher signal whose `matchedValue` is longer than
120 characters. -/
theorem matchedValue_claim_counterexample :
    ∃ s ∈ detectPlatform alwaysEngine "Framer" framerFp "" [] longHostUrl,
      120 < s.matchedValue.length := by
  decide

def wixFp : PlatformFingerprint := (FINGERPRINTS.get ⟨4, by decide⟩).2

def pepyakaHeaders : List (String × String) := [("server", "Pepyaka/1.2")]

def pepyakaSignal : Signal :=
  ⟨"http_header", "Wix Pepyaka server [server: Pepyaka/1.2]", "high", "Pepyaka/1.2"⟩

theorem signal_matchedValue_bounded_witness :
    pepyakaSignal.matchedValue.length ≤ 120
    ∨ pepyakaSignal.matchedValue = extractHostname "https://x.wixsite.com"
    ∨ pepyakaSignal.matchedValue = hdrGet pepyakaHeaders "server" :=
  (signal_matchedValue_bounded alwaysEngine "Wix" wixFp "" "" "https://x.wixsite.com"
    pepyakaHeaders).1 pepyakaSignal (by decide)

/-- C1: on a fetched page, when the best platform score reaches
`MIN_PLATFORM_SCORE` (5) and the AI heuristic score reaches `MIN_AI_SCORE`
(10), `detectUrl` buckets the page as "platform-assisted" and never as
"ai-assisted": the platform branch is tested strictly before the AI branch. -/
theorem detectUrl_platform_precedence (M : RegexEngine) (rawUrl adjunct : String) (f : FetchOk)
    (hp : MIN_PLATFORM_SCORE ≤
      (bestOf (platformScores M f.html (lowerHeaders f.headers)
        (finalUrlOf f (normalizeUrl rawUrl)))).2)
    (_ha : MIN_AI_SCORE ≤
      scoreSignals (detectAiHeuristics M f.html (lowerHeaders f.headers)
        (finalUrlOf f (normalizeUrl rawUrl)) adjunct)) :
    (detectUrl M rawUrl (.ok f) adjunct).bucket = "platform-assisted"
    ∧ (detectUrl M rawUrl (.ok f) adjunct).bucket ≠ "ai-assisted" := by
  unfold platformScores at hp
  simp only [detectUrl]
  rw [if_pos hp]
  exact ⟨rfl, (by decide : ("platform-assisted" : String) ≠ "ai-assisted")⟩

/-- A regex engine on which exactly the `^Framer/` server-header pattern
tests positively and every count is 5. -/
def precedenceEngine : RegexEngine :=
  { test := fun pat _ _ => pat == "^Framer/",
    exec := fun _ _ _ => none,
    count := fun _ _ _ => 5,
    captures := fun _ _ _ => [] }

def precedenceFetch : FetchOk :=
  { html := "", headers := [("Server", "Framer/1.2")], finalUrl := "https://example.org" }

theorem detectUrl_platform_precedence_witness :
    (detectUrl precedenceEngine "https://example.org" (.ok precedenceFetch) "").bucket
      = "platform-assisted" :=
  (detectUrl_platform_precedence precedenceEngine "https://example.org" "" precedenceFetch
    (by decide) (by decide)).1

/-- C2: whenever the result's fetch-error field is non-null (the primary fetch
failed), the result is the all-defaults record: bucket "unknown", confidence
"none", no platform, zero scores, empty signal lists and score table. -/
theorem detectUrl_fetch_failure_defaults (M : RegexEngine) (rawUrl adjunct : String)
    (fetched : Except String FetchOk)
    (h : (detectUrl M rawUrl fetched adjunct).error ≠ none) :
    (detectUrl M rawUrl fetched adjunct).bucket = "unknown"
    ∧ (detectUrl M rawUrl fetched adjunct).bucketConfidence = "none"
    ∧ (detectUrl M rawUrl fetched adjunct).platform = none
    ∧ (detectUrl M rawUrl fetched adjunct).platformScore = 0
    ∧ (detectUrl M rawUrl fetched adjunct).platformSignals = []
    ∧ (detectUrl M rawUrl fetched adjunct).allPlatformScores = []
    ∧ (detectUrl M rawUrl fetched adjunct).aiScore = 0
    ∧ (detectUrl M rawUrl fetched adjunct).aiSignals = [] := by
  cases fetched with
  | error e => exact ⟨rfl, rfl, rfl, rfl, rfl, rfl, rfl, rfl⟩
  | ok f =>
    exfalso
    apply h
    simp only [detectUrl]
    split
    · rfl
    · split
      · rfl
      · rfl

theorem detectUrl_fetch_failure_defaults_witness :
    (detectUrl plainEngine "x.com" (.error "network timeout") "").bucket = "unknown" :=
  (detectUrl_fetch_failure_defaults plainEngine "x.com" "" (.error "network timeout")
    (by decide)).1

set_option maxHeartbeats 2000000 in
/-- C8: on a fetched page, `aiSignals` and `aiScore` are always exactly the AI
extractor's output and its score (even when the platform bucket wins), while
the platform fields stay at their null/0/empty defaults in every bucket other
than "platform-assisted" (and are populated when that bucket wins). -/
theorem detectUrl_field_population (M : RegexEngine) (rawUrl adjunct : String) (f : FetchOk) :
    (detectUrl M rawUrl (.ok f) adjunct).aiSignals
      = detectAiHeuristics M f.html (lowerHeaders f.headers)
          (finalUrlOf f (normalizeUrl rawUrl)) adjunct
    ∧ (detectUrl M rawUrl (.ok f) adjunct).aiScore
      = scoreSignals (detectAiHeuristics M f.html (lowerHeaders f.headers)
          (finalUrlOf f (normalizeUrl rawUrl)) adjunct)
    ∧ ((detectUrl M rawUrl (.ok f) adjunct).bucket ≠ "platform-assisted" →
        (detectUrl M rawUrl (.ok f) adjunct).platform = none
        ∧ (detectUrl M rawUrl (.ok f) adjunct).platformScore = 0
        ∧ (detectUrl M rawUrl (.ok f) adjunct).platformSignals = [])
    ∧ ((detectUrl M rawUrl (.ok f) adjunct).bucket = "platform-assisted" →
        (detectUrl M rawUrl (.ok f) adjunct).platform ≠ none) := by
  refine ⟨?_, ?_, ?_, ?_⟩ <;>
    (simp only [detectUrl]
     by_cases hp : MIN_PLATFORM_SCORE ≤
        (bestOf ((platformEntries M f.html (lowerHeaders f.headers)
          (finalUrlOf f (normalizeUrl rawUrl))).map (fun q => (q.1, scoreSignals q.2)))).2)
  · rw [if_pos hp]
  · rw [if_neg hp]
    by_cases ha : MIN_AI_SCORE ≤
        scoreSignals (detectAiHeuristics M f.html (lowerHeaders f.headers)
          (finalUrlOf f (normalizeUrl rawUrl)) adjunct)
    · rw [if_pos ha]
    · rw [if_neg ha]
  · rw [if_pos hp]
  · rw [if_neg hp]
    by_cases ha : MIN_AI_SCORE ≤
        scoreSignals (detectAiHeuristics M f.html (lowerHeaders f.headers)
          (finalUrlOf f (normalizeUrl rawUrl)) adjunct)
    · rw [if_pos ha]
    · rw [if_neg ha]
  · rw [if_pos hp]
    exact fun hb => absurd rfl hb
  · rw [if_neg hp]
    by_cases ha : MIN_AI_SCORE ≤
        scoreSignals (detectAiHeuristics M f.html (lowerHeaders f.headers)
          (finalUrlOf f (normalizeUrl rawUrl)) adjunct)
    · rw [if_pos ha]
      exact fun _ => ⟨rfl, rfl, rfl⟩
    · rw [if_neg ha]
      exact fun _ => ⟨rfl, rfl, rfl⟩
  · rw [if_pos hp]
    exact fun _ => by simp
  · rw [if_neg hp]
    by_cases ha : MIN_AI_SCORE ≤
        scoreSignals (detectAiHeuristics M f.html (lowerHeaders f.headers)
          (finalUrlOf f (normalizeUrl rawUrl)) adjunct)
    · rw [if_pos ha]
      exact fun hb => absurd hb (by decide : ("ai-assisted" : String) ≠ "platform-assisted")
    · rw [if_neg ha]
      exact fun hb => absurd hb (by decide : ("no-ai-signals" : String) ≠ "platform-assisted")

theorem detectUrl_field_population_witness :
    (detectUrl precedenceEngine "https://example.org" (.ok precedenceFetch) "").aiSignals
      = detectAiHeuristics precedenceEngine precedenceFetch.html
          (lowerHeaders precedenceFetch.headers)
          (finalUrlOf precedenceFetch (normalizeUrl "https://example.org")) "" :=
  (detectUrl_field_population precedenceEngine "https://example.org" "" precedenceFetch).1

/-- C10 (amended): the adjunct script bundle's content never affects any
platform output — for any two adjunct contents the requested/final URL, error
field, chosen platform, platform score, platform signal list, and full
per-platform score table are identical, and whenever the platform branch wins
the bucket and its confidence are identical as well.  (The amendment: when
the platform branch does not win, the adjunct can — through the AI score —
also change the bucket and bucket confidence, not only the AI fields.) -/
theorem adjunct_platform_noninterference (M : RegexEngine) (rawUrl js1 js2 : String) (f : FetchOk) :
    (detectUrl M rawUrl (.ok f) js1).url = (detectUrl M rawUrl (.ok f) js2).url
    ∧ (detectUrl M rawUrl (.ok f) js1).finalUrl = (detectUrl M rawUrl (.ok f) js2).finalUrl
    ∧ (detectUrl M rawUrl (.ok f) js1).error = (detectUrl M rawUrl (.ok f) js2).error
    ∧ (detectUrl M rawUrl (.ok f) js1).platform = (detectUrl M rawUrl (.ok f) js2).platform
    ∧ (detectUrl M rawUrl (.ok f) js1).platformScore
        = (detectUrl M rawUrl (.ok f) js2).platformScore
    ∧ (detectUrl M rawUrl (.ok f) js1).platformSignals
        = (detectUrl M rawUrl (.ok f) js2).platformSignals
    ∧ (detectUrl M rawUrl (.ok f) js1).allPlatformScores
        = (detectUrl M rawUrl (.ok f) js2).allPlatformScores
    ∧ (MIN_PLATFORM_SCORE ≤
        (bestOf (platformScores M f.html (lowerHeaders f.headers)
          (finalUrlOf f (normalizeUrl rawUrl)))).2 →
        (detectUrl M rawUrl (.ok f) js1).bucket = (detectUrl M rawUrl (.ok f) js2).bucket
        ∧ (detectUrl M rawUrl (.ok f) js1).bucketConfidence
            = (detectUrl M rawUrl (.ok f) js2).bucketConfidence) := by
  simp only [detectUrl]
  by_cases hp : MIN_PLATFORM_SCORE ≤
      (bestOf ((platformEntries M f.html (lowerHeaders f.headers)
        (finalUrlOf f (normalizeUrl rawUrl))).map (fun q => (q.1, scoreSignals q.2)))).2
  · rw [if_pos hp, if_pos hp]
    exact ⟨rfl, rfl, rfl, rfl, rfl, rfl, rfl, fun _ => ⟨rfl, rfl⟩⟩
  · rw [if_neg hp, if_neg hp]
    have hp' : ¬ MIN_PLATFORM_SCORE ≤
        (bestOf (platformScores M f.html (lowerHeaders f.headers)
          (finalUrlOf f (normalizeUrl rawUrl)))).2 := by
      unfold platformScores
      exact hp
    refine ⟨?_, ?_, ?_, ?_, ?_, ?_, ?_, fun hc => absurd hc hp'⟩ <;>
      (split <;> split <;> rfl)

/-- The counterexample page: a bare Vite-built page whose only content is the
script tag for its bundle.  The bundle-discovery regex
`src=["']([^"']*\/assets\/[^"']+\.js)['"]` and the first Vite artifact
pattern `\/assets\/index-[A-Za-z0-9_-]\x7b6,12\x7d\.js` both really match
this HTML, and no other pattern in the file matches it. -/
def viteDemoHtml : String := "<script src=\"/assets/index-abc123.js\"></script>"

/-- The counterexample adjunct bundle: five tutorial-style comments, each a
real match of the first over-commenter regex
`\/\/\s*(This function|...)` (and of nothing else in the file). -/
def overCommentAdjunct : String :=
  "// This function a\n// This function b\n// This function c\n// This function d\n// This function e\n"

/-- The regex engine at the counterexample page, giving on every call made in
the two evaluations below exactly what the real JS `RegExp` gives: the
bundle-discovery regex execs on `viteDemoHtml` (m[0] is its actual match),
the script-tag scan captures the bundle URL, the first Vite pattern tests
positively on `viteDemoHtml`, the first over-commenter pattern occurs 5 times
in `viteDemoHtml + "\n" + overCommentAdjunct`, and every other pattern in
the file matches neither `viteDemoHtml`, nor the adjunct, nor the captured
URL, nor the hostname `plain.example`, nor the empty header values. -/
def adjunctEngine : RegexEngine :=
  { test := fun pat _ subj =>
      pat == (VITE_PATTERNS.headD ("", "")).1 && subj == viteDemoHtml,
    exec := fun pat _ subj =>
      if pat == SCRIPT_SRC_RE && subj == viteDemoHtml then
        some "src=\"/assets/index-abc123.js\""
      else none,
    count := fun pat flags subj =>
      if pat == (OVER_COMMENTER_PATTERNS.headD ("", "")).1 && flags == "ig"
          && subj == viteDemoHtml ++ "\n" ++ overCommentAdjunct then 5
      else 0,
    captures := fun pat _ subj =>
      if pat == SCRIPT_TAG_RE && subj == viteDemoHtml then ["/assets/index-abc123.js"]
      else [] }

def adjunctFetch : FetchOk :=
  { html := viteDemoHtml, headers := [], finalUrl := "https://plain.example" }

set_option maxRecDepth 16384 in
/-- C10 counterexample to "the adjunct content can change only the AI signals
and AI score": on `viteDemoHtml` no platform pattern matches, so the platform
score is 0; with an empty adjunct (the silently-absorbed failed secondary
fetch) the only AI signal is the low-confidence Vite one (score 2) and the
bucket is "no-ai-signals", while the comment-laden adjunct adds a
high-confidence over-commenter signal (score 12 ≥ 10) and the bucket itself —
a non-AI field of the result — flips to "ai-assisted". -/
theorem adjunct_claim_counterexample :
    (detectUrl adjunctEngine "https://plain.example" (.ok adjunctFetch) "").bucket
      = "no-ai-signals"
    ∧ (detectUrl adjunctEngine "https://plain.example" (.ok adjunctFetch) overCommentAdjunct).bucket
      = "ai-assisted" := by
  constructor
  · decide
  · decide

theorem adjunct_platform_noninterference_witness :
    (detectUrl precedenceEngine "https://example.org" (.ok precedenceFetch) "a").platformScore
      = (detectUrl precedenceEngine "https://example.org" (.ok precedenceFetch) "b").platformScore
    ∧ (detectUrl precedenceEngine "https://example.org" (.ok precedenceFetch) "a").bucket
      = (detectUrl precedenceEngine "https://example.org" (.ok precedenceFetch) "b").bucket :=
  ⟨(adjunct_platform_noninterference precedenceEngine "https://example.org" "a" "b"
      precedenceFetch).2.2.2.2.1,
   ((adjunct_platform_noninterference precedenceEngine "https://example.org" "a" "b"
      precedenceFetch).2.2.2.2.2.2.2 (by decide)).1⟩

end Detector
